import Mathlib

/-!
# aws-k8s-tester: the `AddOnCSRsLocal` configuration and the `eks create stresser` command

A shallow embedding of

* `eksconfig/add-on-csrs-local.go`: the add-on record, `IsEnabledAddOnCSRsLocal`
  and `validateAddOnCSRsLocal`;
* `cmd/aws-k8s-tester/eks/create-stresser.go`: `createStresserFunc`, as a function
  from the answers of its collaborators to the sequence of calls it makes.

Methods with a pointer receiver that assign to the receiver return the updated
record next to their result. Go strings are modelled by `String`; `==` on strings
is equality and `+` is `++`.
-/

namespace eksconfig

/-- The add-on record `AddOnCSRsLocal`. The types of `timeutil.TimeFrame` and
`metrics.RequestsSummary` belong to other packages and are parameters. -/
structure AddOnCSRsLocal (TimeFrame RequestsSummary : Type) where
  Enable : Bool
  Created : Bool
  TimeFrameCreate : TimeFrame
  TimeFrameDelete : TimeFrame
  Objects : Int
  InitialRequestConditionType : String
  CreatedNames : List String
  RequestsSummaryWrites : RequestsSummary
  RequestsSummaryWritesJSONPath : String
  RequestsSummaryWritesTablePath : String

/-- The part of `Config` that this file reads or writes: `ConfigPath`, the pointer
field `AddOnCSRsLocal` (`none` is `nil`), and `others`, which stands for every
remaining field of the configuration. -/
structure Config (TimeFrame RequestsSummary Others : Type) where
  ConfigPath : String
  AddOnCSRsLocal : Option (AddOnCSRsLocal TimeFrame RequestsSummary)
  others : Others

/-- The two node-group methods of `Config` that `validateAddOnCSRsLocal` calls.
They are defined in other files of the package; each returns its answer and the
remaining fields as it leaves them. -/
structure NodeGroupMethods (Others : Type) where
  IsEnabledAddOnNodeGroups : Others → Bool × Others
  IsEnabledAddOnManagedNodeGroups : Others → Bool × Others

/-- The two errors `validateAddOnCSRsLocal` can return: the `errors.New` value and
the `fmt.Errorf` value, which carries the offending condition type. -/
inductive ValidateError where
  | noNodeGroupEnabled
  | unknownInitialRequestConditionType (value : String)
  deriving DecidableEq, Repr

variable {TimeFrame RequestsSummary Others : Type}

/-- The method `IsEnabledAddOnCSRsLocal`: the answer and the receiver afterwards. -/
def Config.IsEnabledAddOnCSRsLocal (cfg : Config TimeFrame RequestsSummary Others) :
    Bool × Config TimeFrame RequestsSummary Others :=
  match cfg.AddOnCSRsLocal with
  | none => (false, cfg)
  | some a =>
    if a.Enable then (true, cfg)
    else (false, { cfg with AddOnCSRsLocal := none })

/-- The function `getDefaultAddOnCSRsLocal`; the fields it does not set take the zero
values of their types, passed in for the two foreign types. -/
def getDefaultAddOnCSRsLocal (zeroTimeFrame : TimeFrame) (zeroRequestsSummary : RequestsSummary) :
    AddOnCSRsLocal TimeFrame RequestsSummary where
  Enable := false
  Created := false
  TimeFrameCreate := zeroTimeFrame
  TimeFrameDelete := zeroTimeFrame
  Objects := 10
  InitialRequestConditionType := ""
  CreatedNames := []
  RequestsSummaryWrites := zeroRequestsSummary
  RequestsSummaryWritesJSONPath := ""
  RequestsSummaryWritesTablePath := ""

/-- The `switch` on `InitialRequestConditionType`: `true` for the four `case` lines,
`false` for `default`. -/
def knownInitialRequestConditionType (s : String) : Bool :=
  if s = "Approved" then true
  else if s = "Denied" then true
  else if s = "Pending" ∨ s = "" then true
  else if s = "Random" then true
  else false

/-- The tail of `validateAddOnCSRsLocal` after the `switch`: the two path defaults. -/
def defaultSummaryPaths (configPath : String) (a : AddOnCSRsLocal TimeFrame RequestsSummary) :
    AddOnCSRsLocal TimeFrame RequestsSummary :=
  let a1 :=
    if a.RequestsSummaryWritesJSONPath = "" then
      { a with RequestsSummaryWritesJSONPath :=
          configPath.replace ".yaml" "" ++ "-csrs-local-requests-summary-writes.json" }
    else a
  if a1.RequestsSummaryWritesTablePath = "" then
    { a1 with RequestsSummaryWritesTablePath :=
        configPath.replace ".yaml" "" ++ "-csrs-local-requests-summary-writes.txt" }
  else a1

/-- The condition `!cfg.IsEnabledAddOnNodeGroups() && !cfg.IsEnabledAddOnManagedNodeGroups()`
with its short-circuit evaluation: the second method runs only when the first
answered `false`. -/
def noNodeGroupEnabled (m : NodeGroupMethods Others) (o : Others) : Bool × Others :=
  let r1 := m.IsEnabledAddOnNodeGroups o
  if r1.1 then (false, r1.2)
  else
    let r2 := m.IsEnabledAddOnManagedNodeGroups r1.2
    (!r2.1, r2.2)

/-- The method `validateAddOnCSRsLocal`: the returned error (`none` is `nil`) and
the receiver afterwards. The `none` branch of the inner `match` is a `nil`
dereference in the source; it is not reached, because `IsEnabledAddOnCSRsLocal`
has just answered `true`. -/
def Config.validateAddOnCSRsLocal (m : NodeGroupMethods Others)
    (cfg : Config TimeFrame RequestsSummary Others) :
    Option ValidateError × Config TimeFrame RequestsSummary Others :=
  let r := cfg.IsEnabledAddOnCSRsLocal
  if !r.1 then (none, r.2)
  else
    let g := noNodeGroupEnabled m r.2.others
    let cfg2 := { r.2 with others := g.2 }
    if g.1 then (some .noNodeGroupEnabled, cfg2)
    else
      match cfg2.AddOnCSRsLocal with
      | none => (none, cfg2)
      | some a =>
        let a1 := if a.Objects = 0 then { a with Objects := 10 } else a
        if knownInitialRequestConditionType a1.InitialRequestConditionType then
          (none, { cfg2 with AddOnCSRsLocal := some (defaultSummaryPaths cfg2.ConfigPath a1) })
        else
          (some (.unknownInitialRequestConditionType a1.InitialRequestConditionType),
            { cfg2 with AddOnCSRsLocal := some a1 })

/-- A sample configuration: the default add-on record, which is present and not
enabled; the foreign types are instantiated with `Unit`. -/
def sampleConfig : Config Unit Unit Unit where
  ConfigPath := "test.yaml"
  AddOnCSRsLocal := some (getDefaultAddOnCSRsLocal () ())
  others := ()

end eksconfig

namespace stresser

/-- The data fields of `stresser.Config` that `createStresserFunc` fills in. The
handles (`Logger`, `Stopc`, `S3API`, `Client`) carry no data of their own and are
left out; durations and instants are integers (nanoseconds). -/
structure Config where
  S3BucketName : String
  ClientTimeout : Int
  Deadline : Int
  NamespaceWrite : String
  NamespacesRead : List String
  ObjectSize : Int
  ListLimit : Int
  WritesRawJSONPath : String
  WritesRawJSONS3Key : String
  WritesSummaryJSONPath : String
  WritesSummaryJSONS3Key : String
  WritesSummaryTablePath : String
  WritesSummaryTableS3Key : String
  ReadsRawJSONPath : String
  ReadsRawJSONS3Key : String
  ReadsSummaryJSONPath : String
  ReadsSummaryJSONS3Key : String
  ReadsSummaryTablePath : String
  ReadsSummaryTableS3Key : String
  deriving DecidableEq, Repr

end stresser

namespace eks

/-- The package-level flag variables of `create-stresser.go` (the `float32` flag
`stresserClientQPS` is only handed to the client constructor and is left out). -/
structure Flags where
  stresserKubeConfigPath : String
  stresserPartition : String
  stresserRegion : String
  stresserS3BucketName : String
  stresserClients : Int
  stresserClientBurst : Int
  stresserClientTimeout : Int
  stresserObjectSize : Int
  stresserListLimit : Int
  stresserDuration : Int
  stresserNamespaceWrite : String
  stresserNamespacesRead : List String
  stresserWritesRawJSONS3Dir : String
  stresserWritesSummaryJSONS3Dir : String
  stresserWritesSummaryTableS3Dir : String
  stresserReadsRawJSONS3Dir : String
  stresserReadsSummaryJSONS3Dir : String
  stresserReadsSummaryTableS3Dir : String
  stresserWritesOutputNamePrefix : String
  stresserReadsOutputNamePrefix : String
  stresserBlock : Bool

/-- The two signals registered with `signal.Notify`. -/
inductive Signal where
  | SIGTERM
  | SIGINT
  deriving DecidableEq, Repr

/-- The `String` method of a signal, as the `syscall` package prints it. -/
def Signal.String : Signal → String
  | .SIGTERM => "terminated"
  | .SIGINT => "interrupt"

/-- The case of the first `select` that runs: a signal received on `sigs`, or the
timer of `time.After(stresserDuration)`. -/
inductive Select where
  | sig (s : Signal)
  | after
  deriving DecidableEq, Repr

/-- The fields of the STS answer that the command logs; `none` is a nil pointer. -/
structure CallerIdentity where
  Account : Option String
  UserId : Option String
  Arn : Option String

/-- The answers of everything `createStresserFunc` calls outside this file. An
`Option String` is a returned `error` (`none` is `nil`). `blockSelect` is the
signal received while the command blocks at the end, `none` when none ever
arrives. -/
structure World where
  fileutilExist : String → Bool
  osMkdirAll : Option String
  fileutilIsDirWriteable : Option String
  logutilGetDefaultZapLogger : Option String
  pkgAwsNew : Except String CallerIdentity
  k8sClientNewEKS : Option String
  randutilString : Nat → String
  timeNow : Int
  filepathJoin : String → String → String
  firstSelect : Select
  loaderCollectMetrics : Option String
  blockSelect : Option Signal

/-- One call made by the command, in the order the calls return. -/
inductive Event where
  | fprintfStderr (format arg : String)
  | osMkdirAll (path : String)
  | isDirWriteable (path : String)
  | getDefaultZapLogger
  | pkgAwsNew (partition region : String)
  | lgInfo (msg : String) (fields : List (String × String))
  | newEKS (kubeConfigPath : String) (clients burst : Int)
  | stresserNew (cfg : stresser.Config)
  | loaderStart
  | signalNotify
  | closeStopc
  | loaderStop
  | loaderCollectMetrics
  | lgWarn (msg err : String)
  | printf (text : String)
  deriving DecidableEq, Repr

/-- How the command ends: `os.Exit` with a status, a plain return of the
function, or blocked for ever in the last `select`. -/
inductive Outcome where
  | exited (code : Nat)
  | returned
  | blocked
  deriving DecidableEq, Repr

/-- The calls made so far, and either the value to go on with or the way the
command has ended. -/
structure Proc (α : Type) where
  trace : List Event
  result : Outcome ⊕ α

/-- Sequencing: the second part runs only when the first has not ended the
command, and its calls follow those of the first. -/
def Proc.bind {α β : Type} (p : Proc α) (k : α → Proc β) : Proc β :=
  match p.result with
  | .inl o => ⟨p.trace, .inl o⟩
  | .inr a => ⟨p.trace ++ (k a).trace, (k a).result⟩

instance : Monad Proc where
  pure a := ⟨[], .inr a⟩
  bind := Proc.bind

/-- Record one call. -/
def call (e : Event) : Proc Unit := ⟨[e], .inr ()⟩

/-- The call `os.Exit(code)`. -/
def osExit {α : Type} (code : Nat) : Proc α := ⟨[], .inl (.exited code)⟩

/-- A `select` on which no case ever becomes ready. -/
def blockForever {α : Type} : Proc α := ⟨[], .inl .blocked⟩

/-- The function `aws.StringValue`. -/
def stringValue : Option String → String
  | some s => s
  | none => ""

/-- The literal passed to `stresser.New`. -/
def stresserConfig (f : Flags) (w : World) (sfx : String) : stresser.Config where
  S3BucketName := f.stresserS3BucketName
  ClientTimeout := f.stresserClientTimeout
  Deadline := w.timeNow + f.stresserDuration
  NamespaceWrite := f.stresserNamespaceWrite
  NamespacesRead := f.stresserNamespacesRead
  ObjectSize := f.stresserObjectSize
  ListLimit := f.stresserListLimit
  WritesRawJSONPath := "/var/log/" ++ f.stresserWritesOutputNamePrefix ++ "-" ++ sfx ++ "-writes.json"
  WritesRawJSONS3Key := w.filepathJoin f.stresserWritesRawJSONS3Dir
    (f.stresserWritesOutputNamePrefix ++ "-" ++ sfx ++ "-writes.json")
  WritesSummaryJSONPath :=
    "/var/log/" ++ f.stresserWritesOutputNamePrefix ++ "-" ++ sfx ++ "-writes-summary.json"
  WritesSummaryJSONS3Key := w.filepathJoin f.stresserWritesSummaryJSONS3Dir
    (f.stresserWritesOutputNamePrefix ++ "-" ++ sfx ++ "-writes-summary.json")
  WritesSummaryTablePath :=
    "/var/log/" ++ f.stresserWritesOutputNamePrefix ++ "-" ++ sfx ++ "-writes-summary.txt"
  WritesSummaryTableS3Key := w.filepathJoin f.stresserWritesSummaryTableS3Dir
    (f.stresserWritesOutputNamePrefix ++ "-" ++ sfx ++ "-writes-summary.txt")
  ReadsRawJSONPath := "/var/log/" ++ f.stresserReadsOutputNamePrefix ++ "-" ++ sfx ++ "-reads.json"
  ReadsRawJSONS3Key := w.filepathJoin f.stresserReadsRawJSONS3Dir
    (f.stresserReadsOutputNamePrefix ++ "-" ++ sfx ++ "-reads.json")
  ReadsSummaryJSONPath :=
    "/var/log/" ++ f.stresserReadsOutputNamePrefix ++ "-" ++ sfx ++ "-reads-summary.json"
  ReadsSummaryJSONS3Key := w.filepathJoin f.stresserReadsSummaryJSONS3Dir
    (f.stresserReadsOutputNamePrefix ++ "-" ++ sfx ++ "-reads-summary.json")
  ReadsSummaryTablePath :=
    "/var/log/" ++ f.stresserReadsOutputNamePrefix ++ "-" ++ sfx ++ "-reads-summary.txt"
  ReadsSummaryTableS3Key := w.filepathJoin f.stresserReadsSummaryTableS3Dir
    (f.stresserReadsOutputNamePrefix ++ "-" ++ sfx ++ "-reads-summary.txt")

/-- The six local artifact paths of a `stresser.Config`. -/
def localPaths (c : stresser.Config) : List String :=
  [c.WritesRawJSONPath, c.WritesSummaryJSONPath, c.WritesSummaryTablePath,
   c.ReadsRawJSONPath, c.ReadsSummaryJSONPath, c.ReadsSummaryTablePath]

/-- The function `createStresserFunc`, statement by statement. -/
def createStresserFunc (f : Flags) (w : World) : Proc Unit := do
  if f.stresserKubeConfigPath ≠ "" && !w.fileutilExist f.stresserKubeConfigPath then
    call (.fprintfStderr "kubeconfig not found %q\n" f.stresserKubeConfigPath)
    osExit 1
  call (.osMkdirAll "/var/log")
  if let some err := w.osMkdirAll then
    call (.fprintfStderr "failed to create dir %v\n" err)
    osExit 1
  call (.isDirWriteable "/var/log")
  if let some err := w.fileutilIsDirWriteable then
    call (.fprintfStderr "failed to write dir %v\n" err)
    osExit 1
  call .getDefaultZapLogger
  if let some err := w.logutilGetDefaultZapLogger then
    call (.fprintfStderr "failed to create logger %v\n" err)
    osExit 1
  call (.pkgAwsNew f.stresserPartition f.stresserRegion)
  match w.pkgAwsNew with
  | .error err =>
    call (.fprintfStderr "failed to create AWS session %v\n" err)
    osExit 1
  | .ok stsOutput =>
    call (.lgInfo "created AWS session"
      [("aws-account-id", stringValue stsOutput.Account),
       ("aws-user-id", stringValue stsOutput.UserId),
       ("aws-iam-role-arn", stringValue stsOutput.Arn)])
    call (.newEKS f.stresserKubeConfigPath f.stresserClients f.stresserClientBurst)
    if let some err := w.k8sClientNewEKS then
      call (.fprintfStderr "failed to create client %v\n" err)
      osExit 1
    let sfx := w.randutilString 7
    call (.stresserNew (stresserConfig f w sfx))
    call .loaderStart
    call .signalNotify
    match w.firstSelect with
    | .sig s =>
      call (.lgInfo "received OS signal" [("signal", s.String)])
      call .closeStopc
      call .loaderStop
      osExit 0
    | .after => pure ()
    call .closeStopc
    call .loaderStop
    call .loaderCollectMetrics
    if let some err := w.loaderCollectMetrics then
      call (.lgWarn "failed to get metrics" err)
    call (.printf "\n*********************************\n")
    call (.printf "'aws-k8s-tester eks create stresser' success\n")
    if f.stresserBlock then
      call (.lgInfo "waiting for OS signal" [])
      match w.blockSelect with
      | some s =>
        call (.lgInfo "received OS signal" [("signal", s.String)])
        osExit 0
      | none => blockForever

/-- A setup step of `createStresserFunc` fails: the kubeconfig path is non-empty
and does not exist, `/var/log` cannot be created or is not writable, or the
logger, the AWS session or the cluster client cannot be constructed. -/
def setupFails (f : Flags) (w : World) : Prop :=
  (f.stresserKubeConfigPath ≠ "" ∧ w.fileutilExist f.stresserKubeConfigPath = false) ∨
    w.osMkdirAll ≠ none ∨
    w.fileutilIsDirWriteable ≠ none ∨
    w.logutilGetDefaultZapLogger ≠ none ∨
    (∃ err, w.pkgAwsNew = .error err) ∨
    w.k8sClientNewEKS ≠ none

/-- Every setup step of `createStresserFunc` succeeds; an empty kubeconfig path
counts as success of the first step. -/
def setupSucceeds (f : Flags) (w : World) : Prop :=
  (f.stresserKubeConfigPath = "" ∨ w.fileutilExist f.stresserKubeConfigPath = true) ∧
    w.osMkdirAll = none ∧
    w.fileutilIsDirWriteable = none ∧
    w.logutilGetDefaultZapLogger = none ∧
    (∃ stsOutput, w.pkgAwsNew = .ok stsOutput) ∧
    w.k8sClientNewEKS = none

/-- The calls on the loader: `Start`, `Stop` and `CollectMetrics`. -/
def Event.isLoaderCall : Event → Bool
  | .loaderStart => true
  | .loaderStop => true
  | .loaderCollectMetrics => true
  | _ => false

/-- A call that writes to standard error. -/
def Event.isStderr : Event → Bool
  | .fprintfStderr _ _ => true
  | _ => false

/-- Reading a sequence of calls from its start: `true` when no `b` is met before
the first `a`. -/
def precededBy (a b : Event) : List Event → Bool
  | [] => true
  | e :: t => if e = b then false else if e = a then true else precededBy a b t

/-- Flags of a sample run: no kubeconfig, prefixes `w` and `r`, no blocking. -/
def sampleFlags : Flags where
  stresserKubeConfigPath := ""
  stresserPartition := "aws"
  stresserRegion := "us-west-2"
  stresserS3BucketName := ""
  stresserClients := 1
  stresserClientBurst := 1
  stresserClientTimeout := 1
  stresserObjectSize := 0
  stresserListLimit := 0
  stresserDuration := 5
  stresserNamespaceWrite := "default"
  stresserNamespacesRead := ["default"]
  stresserWritesRawJSONS3Dir := ""
  stresserWritesSummaryJSONS3Dir := ""
  stresserWritesSummaryTableS3Dir := ""
  stresserReadsRawJSONS3Dir := ""
  stresserReadsSummaryJSONS3Dir := ""
  stresserReadsSummaryTableS3Dir := ""
  stresserWritesOutputNamePrefix := "w"
  stresserReadsOutputNamePrefix := "r"
  stresserBlock := false

/-- A sample world: every setup step succeeds, the suffix is `abcdefg`, the timer
fires first and `CollectMetrics` returns an error. -/
def sampleWorld : World where
  fileutilExist := fun _ => false
  osMkdirAll := none
  fileutilIsDirWriteable := none
  logutilGetDefaultZapLogger := none
  pkgAwsNew := .ok ⟨none, none, none⟩
  k8sClientNewEKS := none
  randutilString := fun _ => "abcdefg"
  timeNow := 0
  filepathJoin := fun dir name => dir ++ "/" ++ name
  firstSelect := .after
  loaderCollectMetrics := some "upload failed"
  blockSelect := none

/-- The sample world with `SIGTERM` received before the timer fires. -/
def signalWorld : World := { sampleWorld with firstSelect := .sig .SIGTERM }

/-- The sample world with another suffix of the same length. -/
def secondWorld : World := { sampleWorld with randutilString := fun _ => "hijklmn" }

/-- The sample world with a directory `/var/log` that is not writable. -/
def unwritableWorld : World :=
  { sampleWorld with fileutilIsDirWriteable := some "permission denied" }

end eks

/-! ## Theorems: `eksconfig` -/

namespace eksconfig

variable {TimeFrame RequestsSummary Others : Type}

theorem knownInitialRequestConditionType_iff (s : String) :
    knownInitialRequestConditionType s = true ↔
      s ∈ ["Approved", "Denied", "Random", "Pending", ""] := by
  unfold knownInitialRequestConditionType
  by_cases h1 : s = "Approved"
  · simp [h1]
  by_cases h2 : s = "Denied"
  · simp [h2]
  by_cases h3 : s = "Pending"
  · simp [h3]
  by_cases h4 : s = ""
  · simp [h4]
  by_cases h5 : s = "Random"
  · simp [h5]
  simp [h1, h2, h3, h4, h5]

/-- C5: `IsEnabledAddOnCSRsLocal` answers `true` exactly when the field
`AddOnCSRsLocal` is non-nil and its `Enable` flag is `true`; it answers `false`
exactly when the field is nil or is present with `Enable` false. -/
theorem IsEnabledAddOnCSRsLocal_spec (cfg : Config TimeFrame RequestsSummary Others) :
    (cfg.IsEnabledAddOnCSRsLocal.1 = true ↔
        ∃ a, cfg.AddOnCSRsLocal = some a ∧ a.Enable = true) ∧
      (cfg.IsEnabledAddOnCSRsLocal.1 = false ↔
        cfg.AddOnCSRsLocal = none ∨ ∃ a, cfg.AddOnCSRsLocal = some a ∧ a.Enable = false) := by
  unfold Config.IsEnabledAddOnCSRsLocal
  cases h : cfg.AddOnCSRsLocal with
  | none => simp
  | some a => cases hE : a.Enable <;> simp [hE]

/-- C6: after `IsEnabledAddOnCSRsLocal`, the field `AddOnCSRsLocal` is nil when the
answer was `false` and is unchanged when the answer was `true`; every other
field of the configuration is unchanged in both cases. -/
theorem IsEnabledAddOnCSRsLocal_frame (cfg : Config TimeFrame RequestsSummary Others) :
    (cfg.IsEnabledAddOnCSRsLocal.1 = false → cfg.IsEnabledAddOnCSRsLocal.2.AddOnCSRsLocal = none) ∧
      (cfg.IsEnabledAddOnCSRsLocal.1 = true →
        cfg.IsEnabledAddOnCSRsLocal.2.AddOnCSRsLocal = cfg.AddOnCSRsLocal) ∧
      cfg.IsEnabledAddOnCSRsLocal.2.ConfigPath = cfg.ConfigPath ∧
      cfg.IsEnabledAddOnCSRsLocal.2.others = cfg.others := by
  unfold Config.IsEnabledAddOnCSRsLocal
  cases h : cfg.AddOnCSRsLocal with
  | none => simp [h]
  | some a => cases hE : a.Enable <;> simp [hE, h]

/-- C6 at the sample configuration, whose add-on is present and not enabled: the
answer is `false` and the field is nil afterwards. -/
theorem IsEnabledAddOnCSRsLocal_frame_witness :
    sampleConfig.IsEnabledAddOnCSRsLocal.1 = false ∧
      sampleConfig.IsEnabledAddOnCSRsLocal.2.AddOnCSRsLocal = none :=
  ⟨rfl, (IsEnabledAddOnCSRsLocal_frame sampleConfig).1 rfl⟩

/-- C2: `validateAddOnCSRsLocal` returns an error exactly when the add-on is enabled
(the field is present with `Enable` true) and either both node-group methods
answer `false` or `InitialRequestConditionType` is not one of "Approved",
"Denied", "Random", "Pending", "". -/
theorem validateAddOnCSRsLocal_error_iff (m : NodeGroupMethods Others)
    (cfg : Config TimeFrame RequestsSummary Others) :
    (cfg.validateAddOnCSRsLocal m).1.isSome = true ↔
      ∃ a, cfg.AddOnCSRsLocal = some a ∧ a.Enable = true ∧
        (((m.IsEnabledAddOnNodeGroups cfg.others).1 = false ∧
            (m.IsEnabledAddOnManagedNodeGroups (m.IsEnabledAddOnNodeGroups cfg.others).2).1
              = false) ∨
          a.InitialRequestConditionType ∉ ["Approved", "Denied", "Random", "Pending", ""]) := by
  unfold Config.validateAddOnCSRsLocal Config.IsEnabledAddOnCSRsLocal noNodeGroupEnabled
  cases h : cfg.AddOnCSRsLocal with
  | none => simp
  | some a =>
    have hk := knownInitialRequestConditionType_iff a.InitialRequestConditionType
    cases hE : a.Enable
    · simp [hE]
    · cases hN : (m.IsEnabledAddOnNodeGroups cfg.others).1
      · cases hM : (m.IsEnabledAddOnManagedNodeGroups (m.IsEnabledAddOnNodeGroups cfg.others).2).1
        · simp [h, hE, hN, hM]
        · by_cases ho : a.Objects = 0 <;>
            by_cases hv : knownInitialRequestConditionType a.InitialRequestConditionType = true <;>
            simp [h, hE, hN, hM, ho, hv] <;> simp [hv] at hk <;> tauto
      · by_cases ho : a.Objects = 0 <;>
          by_cases hv : knownInitialRequestConditionType a.InitialRequestConditionType = true <;>
          simp [h, hE, hN, ho, hv] <;> simp [hv] at hk <;> tauto

end eksconfig

/-! ## Theorems: the artifact paths of `createStresserFunc` -/

namespace eks

/-- Two strings that end in endings of which neither is a suffix of the other
are different. -/
theorem append_ne_of_endings (a b e1 e2 : String)
    (h12 : ¬ e1.data <:+ e2.data) (h21 : ¬ e2.data <:+ e1.data) :
    a ++ e1 ≠ b ++ e2 := by
  intro h
  have hd : a.data ++ e1.data = b.data ++ e2.data := by
    simpa [String.data_append] using congrArg String.data h
  have s1 : e1.data <:+ b.data ++ e2.data := hd ▸ List.suffix_append a.data e1.data
  have s2 : e2.data <:+ b.data ++ e2.data := List.suffix_append b.data e2.data
  rcases List.suffix_or_suffix_of_suffix s1 s2 with h1 | h2
  · exact h12 h1
  · exact h21 h2

/-- Two strings built with the same ending and with suffixes of one length
that differ are different, whatever stands before the suffixes. -/
theorem append_ne_of_sfx (a b s1 s2 e : String)
    (hlen : s1.length = s2.length) (hne : s1 ≠ s2) :
    a ++ s1 ++ e ≠ b ++ s2 ++ e := by
  intro h
  have hd : a.data ++ s1.data ++ e.data = b.data ++ s2.data ++ e.data := by
    simpa [String.data_append] using congrArg String.data h
  have h1 : a.data ++ s1.data = b.data ++ s2.data := List.append_cancel_right hd
  have h2 : s1.data = s2.data := List.append_inj_right' h1 hlen
  exact hne (String.ext h2)

/-- The twelve local paths built from two suffixes of one length that differ are
pairwise distinct, for all flags. -/
theorem localPaths_nodup_of_sfx (f1 f2 : Flags) (w1 w2 : World) (s1 s2 : String)
    (hlen : s1.length = s2.length) (hne : s1 ≠ s2) :
    (localPaths (stresserConfig f1 w1 s1) ++ localPaths (stresserConfig f2 w2 s2)).Nodup := by
  simp only [localPaths, stresserConfig, List.cons_append, List.nil_append, List.nodup_cons,
    List.mem_cons, List.mem_singleton, List.not_mem_nil, List.nodup_nil, not_or, or_false,
    not_false_eq_true, and_true]
  split_ands
  all_goals first
    | exact append_ne_of_endings _ _ _ _ (by decide) (by decide)
    | exact append_ne_of_sfx _ _ _ _ _ hlen hne

end eks

/-! ## Theorems: the calls of `createStresserFunc` -/

namespace eks

theorem precededBy_sound (a b : Event) (l : List Event) (h : precededBy a b l = true) :
    ∀ pre post, l = pre ++ b :: post → a ∈ pre := by
  induction l with
  | nil => intro pre post hl; simp at hl
  | cons e t ih =>
    intro pre post hl
    by_cases hb : e = b
    · simp [precededBy, hb] at h
    · cases pre with
      | nil => simp at hl; exact absurd hl.1 hb
      | cons x pre' =>
        simp at hl
        by_cases ha : e = a
        · simp [← hl.1, ha]
        · simp [precededBy, hb, ha] at h
          exact List.mem_cons_of_mem _ (ih h pre' post hl.2)

theorem precededBy_append (a b : Event) (l1 l2 : List Event)
    (h : ∀ e ∈ l1, e ≠ a ∧ e ≠ b) :
    precededBy a b (l1 ++ l2) = precededBy a b l2 := by
  induction l1 with
  | nil => rfl
  | cons e t ih =>
    have he := h e (List.mem_cons_self _ _)
    simp [precededBy, he.1, he.2]
    exact ih (fun x hx => h x (List.mem_cons_of_mem _ hx))

theorem precededBy_of_not_mem (a b : Event) (l : List Event) (h : b ∉ l) :
    precededBy a b l = true := by
  induction l with
  | nil => rfl
  | cons e t ih =>
    have hb : e ≠ b := fun hh => h (by simp [hh])
    have ht : b ∉ t := fun hh => h (List.mem_cons_of_mem _ hh)
    by_cases ha : e = a
    · simp [precededBy, hb, if_pos ha]
    · simp [precededBy, hb, ha, ih ht]

theorem setupFails_not_setupSucceeds (f : Flags) (w : World) (h : setupFails f w) :
    ¬ setupSucceeds f w := by
  rintro ⟨h1, h2, h3, h4, ⟨o, h5⟩, h6⟩
  rcases h with ⟨hp, hx⟩ | h | h | h | ⟨e, h⟩ | h
  · rcases h1 with h1 | h1
    · exact hp h1
    · simp [h1] at hx
  · exact h h2
  · exact h h3
  · exact h h4
  · simp [h5] at h
  · exact h h6

/-- The three shapes of a run of `createStresserFunc`: a setup step fails; the
setup succeeds and a signal arrives first; the setup succeeds and the timer
fires first. In every run the only `stresser.Config` built is the one with the
suffix `randutil.String(7)`. -/
theorem createStresserFunc_shape (f : Flags) (w : World) :
    (∀ c, .stresserNew c ∈ (createStresserFunc f w).trace →
        c = stresserConfig f w (w.randutilString 7)) ∧
    ((setupFails f w ∧ (createStresserFunc f w).result = .inl (.exited 1) ∧
        ∀ e ∈ (createStresserFunc f w).trace, e.isLoaderCall = false) ∨
      (setupSucceeds f w ∧
        ∃ pre, (∀ e ∈ pre, e.isLoaderCall = false ∧ e.isStderr = false) ∧
        ((∃ s, w.firstSelect = .sig s ∧
            (createStresserFunc f w).trace =
              pre ++ [.loaderStart, .signalNotify,
                .lgInfo "received OS signal" [("signal", s.String)], .closeStopc, .loaderStop] ∧
            (createStresserFunc f w).result = .inl (.exited 0)) ∨
          (w.firstSelect = .after ∧ ∃ post,
            (createStresserFunc f w).trace =
              pre ++ [.loaderStart, .signalNotify, .closeStopc, .loaderStop,
                .loaderCollectMetrics] ++ post ∧
            (∀ e ∈ post, e.isLoaderCall = false ∧ e.isStderr = false) ∧
            .printf "'aws-k8s-tester eks create stresser' success\n" ∈ post ∧
            (∀ err, w.loaderCollectMetrics = some err →
              .lgWarn "failed to get metrics" err ∈ post) ∧
            ((createStresserFunc f w).result = .inr () ∨
              (createStresserFunc f w).result = .inl (.exited 0) ∨
              (createStresserFunc f w).result = .inl .blocked))))) := by
  by_cases hk : f.stresserKubeConfigPath ≠ "" ∧ w.fileutilExist f.stresserKubeConfigPath = false
  · refine ⟨?_, Or.inl ?_⟩ <;>
    simp [createStresserFunc, setupFails, Event.isLoaderCall, hk, bind, Proc.bind, call, osExit,
      pure]
  cases h2 : w.osMkdirAll with
  | some e2 =>
    refine ⟨?_, Or.inl ?_⟩ <;>
    simp [createStresserFunc, setupFails, Event.isLoaderCall, hk, h2, bind, Proc.bind, call,
      osExit, pure]
  | none =>
  cases h3 : w.fileutilIsDirWriteable with
  | some e3 =>
    refine ⟨?_, Or.inl ?_⟩ <;>
    simp [createStresserFunc, setupFails, Event.isLoaderCall, hk, h2, h3, bind, Proc.bind, call,
      osExit, pure]
  | none =>
  cases h4 : w.logutilGetDefaultZapLogger with
  | some e4 =>
    refine ⟨?_, Or.inl ?_⟩ <;>
    simp [createStresserFunc, setupFails, Event.isLoaderCall, hk, h2, h3, h4, bind, Proc.bind,
      call, osExit, pure]
  | none =>
  cases h5 : w.pkgAwsNew with
  | error e5 =>
    refine ⟨?_, Or.inl ?_⟩ <;>
    simp [createStresserFunc, setupFails, Event.isLoaderCall, hk, h2, h3, h4, h5, bind,
      Proc.bind, call, osExit, pure]
  | ok stsOutput =>
  cases h6 : w.k8sClientNewEKS with
  | some e6 =>
    refine ⟨?_, Or.inl ?_⟩ <;>
    simp [createStresserFunc, setupFails, Event.isLoaderCall, hk, h2, h3, h4, h5, h6, bind,
      Proc.bind, call, osExit, pure]
  | none =>
  have hok : setupSucceeds f w := by
    refine ⟨?_, h2, h3, h4, ⟨stsOutput, h5⟩, h6⟩
    by_cases hp : f.stresserKubeConfigPath = ""
    · exact Or.inl hp
    · right
      cases hx : w.fileutilExist f.stresserKubeConfigPath
      · exact absurd ⟨hp, hx⟩ hk
      · rfl
  constructor
  · cases hs : w.firstSelect <;> cases hm : w.loaderCollectMetrics <;>
      cases hb : f.stresserBlock <;> cases hbs : w.blockSelect <;>
      simp [createStresserFunc, blockForever, hk, h2, h3, h4, h5, h6, hs, hm, hb, hbs, bind,
        Proc.bind, call, osExit, pure]
  refine Or.inr ⟨hok,
    [.osMkdirAll "/var/log", .isDirWriteable "/var/log", .getDefaultZapLogger,
      .pkgAwsNew f.stresserPartition f.stresserRegion,
      .lgInfo "created AWS session"
        [("aws-account-id", stringValue stsOutput.Account),
         ("aws-user-id", stringValue stsOutput.UserId),
         ("aws-iam-role-arn", stringValue stsOutput.Arn)],
      .newEKS f.stresserKubeConfigPath f.stresserClients f.stresserClientBurst,
      .stresserNew (stresserConfig f w (w.randutilString 7))], ?_, ?_⟩
  · simp [Event.isLoaderCall, Event.isStderr]
  cases hs : w.firstSelect with
  | sig s =>
    left
    refine ⟨s, rfl, ?_, ?_⟩ <;>
      simp [createStresserFunc, hk, h2, h3, h4, h5, h6, hs, bind, Proc.bind, call, osExit, pure]
  | after =>
    right
    refine ⟨rfl, (createStresserFunc f w).trace.drop 12, ?_⟩
    cases hm : w.loaderCollectMetrics <;> cases hb : f.stresserBlock <;>
      cases hbs : w.blockSelect <;>
      simp [createStresserFunc, Event.isLoaderCall, Event.isStderr, blockForever, hk, h2, h3, h4,
        h5, h6, hs, hm, hb, hbs, bind, Proc.bind, call, osExit, pure]

theorem sampleWorld_trace :
    (createStresserFunc sampleFlags sampleWorld).trace =
      [.osMkdirAll "/var/log", .isDirWriteable "/var/log", .getDefaultZapLogger,
        .pkgAwsNew "aws" "us-west-2",
        .lgInfo "created AWS session"
          [("aws-account-id", ""), ("aws-user-id", ""), ("aws-iam-role-arn", "")],
        .newEKS "" 1 1,
        .stresserNew (stresserConfig sampleFlags sampleWorld "abcdefg"),
        .loaderStart, .signalNotify, .closeStopc, .loaderStop, .loaderCollectMetrics,
        .lgWarn "failed to get metrics" "upload failed",
        .printf "\n*********************************\n",
        .printf "'aws-k8s-tester eks create stresser' success\n"] := by
  simp [createStresserFunc, sampleFlags, sampleWorld, stringValue, bind, Proc.bind, call,
    osExit, pure]

theorem signalWorld_trace :
    (createStresserFunc sampleFlags signalWorld).trace =
      [.osMkdirAll "/var/log", .isDirWriteable "/var/log", .getDefaultZapLogger,
        .pkgAwsNew "aws" "us-west-2",
        .lgInfo "created AWS session"
          [("aws-account-id", ""), ("aws-user-id", ""), ("aws-iam-role-arn", "")],
        .newEKS "" 1 1,
        .stresserNew (stresserConfig sampleFlags signalWorld "abcdefg"),
        .loaderStart, .signalNotify,
        .lgInfo "received OS signal" [("signal", "terminated")],
        .closeStopc, .loaderStop] := by
  simp [createStresserFunc, sampleFlags, signalWorld, sampleWorld, stringValue, Signal.String,
    bind, Proc.bind, call, osExit, pure]

theorem sampleWorld_setupSucceeds : setupSucceeds sampleFlags sampleWorld :=
  ⟨Or.inl rfl, rfl, rfl, rfl, ⟨_, rfl⟩, rfl⟩

/-- C1, as stated, fails: in the run where `SIGTERM` arrives before the timer,
`loader.Stop` is called, `loader.CollectMetrics` is not, and the process exits
with status 0. -/
theorem signal_run_skips_CollectMetrics :
    Event.loaderStop ∈ (createStresserFunc sampleFlags signalWorld).trace ∧
      Event.loaderCollectMetrics ∉ (createStresserFunc sampleFlags signalWorld).trace ∧
      (createStresserFunc sampleFlags signalWorld).result = .inl (.exited 0) := by
  rw [signalWorld_trace]
  refine ⟨by simp, by simp, ?_⟩
  simp [createStresserFunc, sampleFlags, signalWorld, sampleWorld, bind, Proc.bind, call,
    osExit, pure]

/-- C1, amended: in every run in which `loader.Stop` is called, when stopping was
triggered by the duration elapsing `loader.CollectMetrics` is the next call
after `loader.Stop`, before the command ends; when stopping was triggered by a
signal the command exits with status 0 and `loader.CollectMetrics` is not
called. -/
theorem stop_then_CollectMetrics (f : Flags) (w : World)
    (hstop : Event.loaderStop ∈ (createStresserFunc f w).trace) :
    (w.firstSelect = .after → ∃ pre post,
        (createStresserFunc f w).trace =
          pre ++ .loaderStop :: .loaderCollectMetrics :: post) ∧
      (∀ s, w.firstSelect = .sig s →
        Event.loaderCollectMetrics ∉ (createStresserFunc f w).trace ∧
          (createStresserFunc f w).result = .inl (.exited 0)) := by
  rcases (createStresserFunc_shape f w).2 with ⟨_, _, hq⟩ | ⟨_, pre, hpre, hB | hC⟩
  · have := hq _ hstop
    simp [Event.isLoaderCall] at this
  · obtain ⟨s, hs, ht, hr⟩ := hB
    refine ⟨fun h => by simp [hs] at h, fun s2 _ => ⟨?_, hr⟩⟩
    rw [ht]
    intro hmem
    simp at hmem
    have := (hpre _ hmem).1
    simp [Event.isLoaderCall] at this
  · obtain ⟨ha, post, ht, _⟩ := hC
    refine ⟨fun _ => ⟨pre ++ [.loaderStart, .signalNotify, .closeStopc], post, ?_⟩,
      fun s hs => by simp [ha] at hs⟩
    rw [ht]
    simp

/-- The amended C1 at the sample run, where the timer fires first. -/
theorem stop_then_CollectMetrics_witness :
    Event.loaderStop ∈ (createStresserFunc sampleFlags sampleWorld).trace ∧
      ∃ pre post, (createStresserFunc sampleFlags sampleWorld).trace =
        pre ++ .loaderStop :: .loaderCollectMetrics :: post :=
  ⟨by rw [sampleWorld_trace]; simp,
    (stop_then_CollectMetrics sampleFlags sampleWorld (by rw [sampleWorld_trace]; simp)).1 rfl⟩

theorem unwritableWorld_setupFails : setupFails sampleFlags unwritableWorld :=
  Or.inr (Or.inr (Or.inl (by simp [unwritableWorld])))

/-- C4: when a setup step fails the command exits with status 1 and
`loader.Start` is not called; `loader.Start` is called only when every setup
step succeeded, an empty kubeconfig path counting as success. -/
theorem setup_failure_never_starts (f : Flags) (w : World) :
    (setupFails f w →
        (createStresserFunc f w).result = .inl (.exited 1) ∧
          Event.loaderStart ∉ (createStresserFunc f w).trace) ∧
      (Event.loaderStart ∈ (createStresserFunc f w).trace → setupSucceeds f w) := by
  rcases (createStresserFunc_shape f w).2 with ⟨hf, hr, hq⟩ | ⟨hok, _⟩
  · refine ⟨fun _ => ⟨hr, fun hmem => ?_⟩, fun hmem => ?_⟩ <;>
    · have := hq _ hmem
      simp [Event.isLoaderCall] at this
  · exact ⟨fun hf => absurd hok (setupFails_not_setupSucceeds f w hf), fun _ => hok⟩

/-- C4 at the run whose directory `/var/log` is not writable. -/
theorem setup_failure_never_starts_witness :
    setupFails sampleFlags unwritableWorld ∧
      (createStresserFunc sampleFlags unwritableWorld).result = .inl (.exited 1) ∧
      Event.loaderStart ∉ (createStresserFunc sampleFlags unwritableWorld).trace :=
  ⟨unwritableWorld_setupFails,
    (setup_failure_never_starts sampleFlags unwritableWorld).1 unwritableWorld_setupFails⟩

/-- C7: in every run, whatever precedes a call of `loader.CollectMetrics` contains
a call of `loader.Stop`, and whatever precedes a call of `loader.Stop` contains
a call of `loader.Start`. -/
theorem CollectMetrics_only_after_Stop (f : Flags) (w : World) :
    (∀ pre post, (createStresserFunc f w).trace = pre ++ .loaderCollectMetrics :: post →
        Event.loaderStop ∈ pre) ∧
      (∀ pre post, (createStresserFunc f w).trace = pre ++ .loaderStop :: post →
        Event.loaderStart ∈ pre) := by
  have key : ∀ l : List Event, (∀ e ∈ l, e.isLoaderCall = false) →
      ∀ a b : Event, a.isLoaderCall = true → b.isLoaderCall = true →
        ∀ e ∈ l, e ≠ a ∧ e ≠ b := by
    intro l hl a b ha hb e he
    have := hl e he
    exact ⟨fun h => by simp [h, ha] at this, fun h => by simp [h, hb] at this⟩
  rcases (createStresserFunc_shape f w).2 with ⟨_, _, hq⟩ | ⟨_, pre, hpre, hB | hC⟩
  · have hn : ∀ b : Event, b.isLoaderCall = true → b ∉ (createStresserFunc f w).trace := by
      intro b hb hm
      have := hq b hm
      simp [hb] at this
    exact ⟨precededBy_sound _ _ _ (precededBy_of_not_mem _ _ _ (hn _ rfl)),
      precededBy_sound _ _ _ (precededBy_of_not_mem _ _ _ (hn _ rfl))⟩
  · obtain ⟨s, _, ht, _⟩ := hB
    have hpre2 := fun e he => (hpre e he).1
    constructor
    · apply precededBy_sound
      rw [ht, precededBy_append _ _ _ _
        (key pre hpre2 .loaderStop .loaderCollectMetrics rfl rfl)]
      simp [precededBy]
    · apply precededBy_sound
      rw [ht, precededBy_append _ _ _ _ (key pre hpre2 .loaderStart .loaderStop rfl rfl)]
      simp [precededBy]
  · obtain ⟨_, post, ht, _⟩ := hC
    have hpre2 := fun e he => (hpre e he).1
    constructor
    · apply precededBy_sound
      rw [ht, List.append_assoc, precededBy_append _ _ _ _
        (key pre hpre2 .loaderStop .loaderCollectMetrics rfl rfl)]
      simp [precededBy]
    · apply precededBy_sound
      rw [ht, List.append_assoc, precededBy_append _ _ _ _
        (key pre hpre2 .loaderStart .loaderStop rfl rfl)]
      simp [precededBy]

/-- C7 at the sample run: the calls before `loader.CollectMetrics` there contain
`loader.Stop`. -/
theorem CollectMetrics_only_after_Stop_witness :
    Event.loaderStop ∈
      [Event.osMkdirAll "/var/log", .isDirWriteable "/var/log", .getDefaultZapLogger,
        .pkgAwsNew "aws" "us-west-2",
        .lgInfo "created AWS session"
          [("aws-account-id", ""), ("aws-user-id", ""), ("aws-iam-role-arn", "")],
        .newEKS "" 1 1,
        .stresserNew (stresserConfig sampleFlags sampleWorld "abcdefg"),
        .loaderStart, .signalNotify, .closeStopc, .loaderStop] :=
  (CollectMetrics_only_after_Stop sampleFlags sampleWorld).1 _
    [.lgWarn "failed to get metrics" "upload failed",
      .printf "\n*********************************\n",
      .printf "'aws-k8s-tester eks create stresser' success\n"]
    (by rw [sampleWorld_trace]; rfl)

/-- C8: when the setup succeeded and the run ends because the duration elapsed,
the command prints the success banner and does not exit with a non-zero status,
whatever `loader.CollectMetrics` returns; an error it returns is logged as a
warning, and nothing is written to standard error. -/
theorem duration_run_reports_success (f : Flags) (w : World)
    (hok : setupSucceeds f w) (hafter : w.firstSelect = .after) :
    Event.printf "'aws-k8s-tester eks create stresser' success\n" ∈
        (createStresserFunc f w).trace ∧
      (∀ code, (createStresserFunc f w).result = .inl (.exited code) → code = 0) ∧
      (∀ err, w.loaderCollectMetrics = some err →
        Event.lgWarn "failed to get metrics" err ∈ (createStresserFunc f w).trace) ∧
      (∀ e ∈ (createStresserFunc f w).trace, e.isStderr = false) := by
  rcases (createStresserFunc_shape f w).2 with ⟨hf, _⟩ | ⟨_, pre, hpre, hB | hC⟩
  · exact absurd hok (setupFails_not_setupSucceeds f w hf)
  · obtain ⟨s, hs, _⟩ := hB
    simp [hafter] at hs
  · obtain ⟨_, post, ht, hpost, hbanner, hwarn, hres⟩ := hC
    refine ⟨?_, ?_, ?_, ?_⟩
    · rw [ht]; exact List.mem_append_right _ hbanner
    · intro code hcode
      rcases hres with h | h | h <;> simp [h] at hcode
      exact hcode.symm
    · intro err herr
      rw [ht]; exact List.mem_append_right _ (hwarn err herr)
    · intro e he
      rw [ht] at he
      simp only [List.mem_append, List.mem_cons, List.mem_singleton, List.not_mem_nil,
        or_false] at he
      rcases he with (he | he) | he
      · exact (hpre e he).2
      · rcases he with rfl | rfl | rfl | rfl | rfl <;> rfl
      · exact (hpost e he).2

/-- C8 at the sample run, where `loader.CollectMetrics` returns an error. -/
theorem duration_run_reports_success_witness :
    sampleWorld.loaderCollectMetrics = some "upload failed" ∧
      Event.printf "'aws-k8s-tester eks create stresser' success\n" ∈
        (createStresserFunc sampleFlags sampleWorld).trace ∧
      (∀ code, (createStresserFunc sampleFlags sampleWorld).result = .inl (.exited code) →
        code = 0) ∧
      Event.lgWarn "failed to get metrics" "upload failed" ∈
        (createStresserFunc sampleFlags sampleWorld).trace :=
  have h := duration_run_reports_success sampleFlags sampleWorld sampleWorld_setupSucceeds rfl
  ⟨rfl, h.1, h.2.1, h.2.2.1 _ rfl⟩

/-- C3: for two runs whose random suffixes have one length and differ, the six
local artifact paths of the first run and the six of the second are twelve
pairwise distinct paths, for all output name prefixes of the two runs. -/
theorem local_artifact_paths_distinct (f1 f2 : Flags) (w1 w2 : World) (c1 c2 : stresser.Config)
    (h1 : Event.stresserNew c1 ∈ (createStresserFunc f1 w1).trace)
    (h2 : Event.stresserNew c2 ∈ (createStresserFunc f2 w2).trace)
    (hlen : (w1.randutilString 7).length = (w2.randutilString 7).length)
    (hne : w1.randutilString 7 ≠ w2.randutilString 7) :
    (localPaths c1 ++ localPaths c2).Nodup := by
  rw [(createStresserFunc_shape f1 w1).1 c1 h1, (createStresserFunc_shape f2 w2).1 c2 h2]
  exact localPaths_nodup_of_sfx f1 f2 w1 w2 _ _ hlen hne

/-- C3 at the sample run and a second run with the same prefixes and the suffix
`hijklmn`. -/
theorem local_artifact_paths_distinct_witness :
    (localPaths (stresserConfig sampleFlags sampleWorld "abcdefg") ++
      localPaths (stresserConfig sampleFlags secondWorld "hijklmn")).Nodup :=
  local_artifact_paths_distinct sampleFlags sampleFlags sampleWorld secondWorld _ _
    (by rw [sampleWorld_trace]; simp)
    (by
      simp [createStresserFunc, sampleFlags, secondWorld, sampleWorld, stringValue, bind,
        Proc.bind, call, osExit, pure])
    (by decide) (by decide)

end eks
